import Mathlib

/-!
Verification development for the ComfyUI Qwen-Image integration layer
(ru4ls/ComfyUI_Qwen_Image).  The Python source is shallowly embedded:

* JSON payloads are modelled by the inductive `JVal`;
* Python dict/list/string primitives (`in`, `len`, subscription, the
  truthiness test) are modelled by total Lean functions returning
  `Except PyErr _` where the Python operation can raise;
* image tensors are modelled with exact rational pixel values
  (float32 arithmetic is exact on the values the claims quantify over:
  for every integer k in [0,255] the float32 computation
  `trunc(float32(k/255) * 255)` returns k, checked exhaustively);
* the PNG + base64 transport is modelled as a lossless container for
  8-bit pixel arrays, which PNG is.
-/

/-- A JSON value, as produced by `response.json()` and consumed by the
payload builders in the source. Object fields keep insertion order,
mirroring Python dicts. -/
inductive JVal where
  | str (s : String)
  | num (n : Int)
  | bool (b : Bool)
  | arr (xs : List JVal)
  | obj (fields : List (String × JVal))

mutual

/-- Structural equality test on JSON values (Python `==` on parsed JSON). -/
def JVal.beq : JVal → JVal → Bool
  | .str a, .str b => a == b
  | .num a, .num b => a == b
  | .bool a, .bool b => a == b
  | .arr xs, .arr ys => JVal.beqList xs ys
  | .obj fs, .obj gs => JVal.beqFields fs gs
  | _, _ => false

/-- Pointwise equality test on JSON arrays. -/
def JVal.beqList : List JVal → List JVal → Bool
  | [], [] => true
  | x :: xs, y :: ys => JVal.beq x y && JVal.beqList xs ys
  | _, _ => false

/-- Pointwise equality test on JSON object field lists. -/
def JVal.beqFields : List (String × JVal) → List (String × JVal) → Bool
  | [], [] => true
  | (k, v) :: fs, (l, w) :: gs => k == l && JVal.beq v w && JVal.beqFields fs gs
  | _, _ => false

end

instance : BEq JVal := ⟨JVal.beq⟩

/-- First-match lookup of a key in an ordered field list (Python dict
lookup; builders never create duplicate keys). -/
def lookupKey : List (String × JVal) → String → Option JVal
  | [], _ => none
  | (k, v) :: rest, key => if k == key then some v else lookupKey rest key

/-- Key lookup on a `JVal`: `some` only for objects that have the key. -/
def JVal.getKey : JVal → String → Option JVal
  | .obj fs, key => lookupKey fs key
  | _, _ => none

/-- Errors a Python expression in the response-extraction code can raise,
plus the repository's own "Unexpected API response format" error
(`QwenAPIResponseError` in the client, `ValueError`/`RuntimeError` in the
node copies), which carries the parsed body. -/
inductive PyErr where
  | typeError
  | keyError
  | indexError
  | responseError (raw : JVal)

/-- Boolean list-prefix test used to model Python substring search. -/
def listIsPreOf : List Char → List Char → Bool
  | [], _ => true
  | _ :: _, [] => false
  | a :: as, b :: bs => a == b && listIsPreOf as bs

/-- Boolean infix (substring) test on character lists. -/
def listInfix (n : List Char) : List Char → Bool
  | [] => listIsPreOf n []
  | c :: rest => listIsPreOf n (c :: rest) || listInfix n rest

/-- Python `key in container`: dict membership for objects, element
membership for lists, substring test for strings; raises `TypeError`
on numbers and booleans. -/
def pyContains (container : JVal) (key : String) : Except PyErr Bool :=
  match container with
  | .obj fs => .ok (lookupKey fs key).isSome
  | .arr xs => .ok (xs.contains (.str key))
  | .str s => .ok (listInfix key.data s.data)
  | .num _ => .error .typeError
  | .bool _ => .error .typeError

/-- Python `container[key]` with a string key: dict lookup (raising
`KeyError` when absent), `TypeError` on every other JSON value. -/
def pySubscriptStr (container : JVal) (key : String) : Except PyErr JVal :=
  match container with
  | .obj fs =>
    match lookupKey fs key with
    | some v => .ok v
    | none => .error .keyError
  | _ => .error .typeError

/-- Python `container[i]` with an integer index: list indexing (raising
`IndexError` out of range), `KeyError` on dicts (the parsed JSON dicts
have only string keys), `TypeError` on the rest; `container[i]` on a
string yields the one-character substring. -/
def pySubscriptNat (container : JVal) (i : Nat) : Except PyErr JVal :=
  match container with
  | .arr xs =>
    match xs.get? i with
    | some v => .ok v
    | none => .error .indexError
  | .obj _ => .error .keyError
  | .str s =>
    match s.data.get? i with
    | some c => .ok (.str (String.mk [c]))
    | none => .error .indexError
  | _ => .error .typeError

/-- Python `len(container)`: defined on dicts, lists and strings,
`TypeError` otherwise. -/
def pyLen (container : JVal) : Except PyErr Nat :=
  match container with
  | .obj fs => .ok fs.length
  | .arr xs => .ok xs.length
  | .str s => .ok s.data.length
  | _ => .error .typeError

/-- Python truthiness of an optional string: `None` and `""` are falsy. -/
def pyTruthy : Option String → Bool
  | none => false
  | some s => s ≠ ""

example : pyContains (.obj [("output", .num 5)]) "output" = .ok true := rfl
example : pySubscriptNat (.obj [("a", .num 1)]) 0 = .error .keyError := rfl

/-!
## Image codec (`qwen_image/utils/image_utils.py`, duplicated in
`core/api_base.py` and `qwen_image_nodes.py`)

ComfyUI hands nodes a float32 tensor of shape `[1, H, W, C]`.  Arrays
are modelled shape-explicitly: a shape list together with the row-major
flat data, with exact rational values (float32 arithmetic is exact on
the quantized values the claims quantify over).  `numpy.squeeze()`
removes EVERY axis of size 1 from the shape and leaves the row-major
flat data unchanged; `Image.fromarray` on the squeezed uint8 array
needs a PIL mode — 2-D is "L", and `(h, w, c)` has one exactly for
`c ∈ {2, 3, 4}` ("LA", "RGB", "RGBA") — all of which PNG stores
losslessly at 8 bits; `numpy.array` of the decoded PNG restores that
same shape, and `unsqueeze(0)` prepends a batch axis of size 1.
-/

/-- An image tensor as the nodes receive it: the numpy/torch shape list
(for ComfyUI inputs `[1, H, W, C]`) and the row-major flat data. -/
structure ImageTensor where
  shape : List ℕ
  data : List ℚ
deriving DecidableEq

/-- The content of an 8-bit PNG produced by the encoder: the shape
`numpy.array` recovers from it (`[h, w]` for mode L, `[h, w, c]` for
LA/RGB/RGBA) and the row-major pixel bytes — PNG compression is
lossless, so this is what a base64 PNG string carries. -/
structure PngImage where
  shape : List ℕ
  pix : List ℕ
deriving DecidableEq

/-- Truncation toward zero, as the C cast behind `astype(np.uint8)`. -/
def truncToZero (x : ℚ) : Int :=
  if 0 ≤ x then ⌊x⌋ else -⌊-x⌋

/-- The value an entry gets under `(image_np * 255).astype(np.uint8)`:
multiply by 255, truncate toward zero, wrap into 8 bits. -/
def scaleToUint8 (x : ℚ) : ℕ :=
  ((truncToZero (x * 255)).emod 256).toNat

/-- `numpy.squeeze`: drop every axis of size 1.  The row-major flat
data is unaffected by removing size-1 axes. -/
def squeezeShape (s : List ℕ) : List ℕ :=
  s.filter (fun d => d ≠ 1)

/-- `tensor_to_base64_image` (image_utils.py lines 12-38), up to the
lossless PNG + base64 container.  Mirrors the source: `image_np.max()`
raises on an empty array (`none`); when `max() <= 1.0` — equivalently,
every entry is ≤ 1 — the array is scaled by 255 and cast to uint8 and
the squeezed array is handed to `Image.fromarray`, which accepts a 2-D
uint8 array (mode L) or a 3-D one with 2/3/4 channels (LA/RGB/RGBA),
all saved losslessly as PNG; any other squeezed rank or channel count
has no PIL mode and fails (`none`).  When some entry exceeds 1 the
array stays float32, which `Image.fromarray` / PNG saving reject (3-D
float has no PIL typemap entry, 2-D float is mode F which PNG cannot
write), so no image is produced — `none`. -/
def tensor_to_base64_image (t : ImageTensor) : Option PngImage :=
  if t.data = [] then none
  else if t.data.all (fun x => x ≤ 1) then
    match squeezeShape t.shape with
    | [h, w] => some ⟨[h, w], t.data.map scaleToUint8⟩
    | [h, w, c] =>
      if c = 2 ∨ c = 3 ∨ c = 4 then some ⟨[h, w, c], t.data.map scaleToUint8⟩
      else none
    | _ => none
  else none

/-- `base64_to_tensor_image` (image_utils.py lines 40-60): decode the
PNG, `numpy.array` restores the stored shape, divide by 255 into [0,1]
floats, and `unsqueeze(0)` prepends a batch axis of size 1. -/
def base64_to_tensor_image (p : PngImage) : ImageTensor :=
  ⟨1 :: p.shape, p.pix.map (fun n : ℕ => (n : ℚ) / 255)⟩

/-!
## API-key loading (`core/api_base.py` lines 62-68,
`qwen_image/utils/config.py` lines 36-42)

Both copies run `value.strip().strip('"\x27')` on the environment
variable: first remove surrounding whitespace, then remove ALL leading
and trailing quote characters of either kind.
-/

/-- Whitespace stripped by a bare Python `str.strip()` (ASCII part). -/
def pyIsSpace (c : Char) : Bool :=
  c == ' ' || c == '\t' || c == '\n' || c == '\r' || c == '\x0b' || c == '\x0c'

/-- The characters in the Python strip set `'"\x27'`. -/
def isQuoteChar (c : Char) : Bool :=
  c == '"' || c == '\''

/-- Python `s.strip(chars)`: drop characters of the set from both ends
until a character outside the set (or the empty string) remains. -/
def pyStripChars (p : Char → Bool) (s : List Char) : List Char :=
  ((s.dropWhile p).reverse.dropWhile p).reverse

/-- The key actually loaded from `DASHSCOPE_API_KEY` (and the China
variant): `raw.strip().strip('"\x27')`. -/
def loadApiKey (raw : List Char) : List Char :=
  pyStripChars isQuoteChar (pyStripChars pyIsSpace raw)

/-- Following the spec words, for comparison with `loadApiKey`: the
value "trimmed of surrounding whitespace and a single layer of matching
quote characters" — remove the first and last character when they are
the same quote character and the string has length at least two. -/
def specStripOneQuoteLayer (raw : List Char) : List Char :=
  match pyStripChars pyIsSpace raw with
  | [] => []
  | c :: rest =>
    if isQuoteChar c && ((c :: rest).getLast? == some c) && !rest.isEmpty then
      ((c :: rest).drop 1).dropLast
    else c :: rest

/-!
## API base (`core/api_base.py` lines 43-114)
-/

/-- Message of the `ValueError` from `check_api_key`
(`QwenAPIConfigurationError` carries the same text in config.py). -/
def noKeyMsg : String :=
  "DASHSCOPE_API_KEY environment variable not set. Please set it before using this node."

/-- `QwenAPIBase.check_api_key` (api_base.py lines 71-79).  The keys are
`Option String` (unset environment variable = `none`); Python truthiness
also treats the empty string as unset. -/
def check_api_key (intl china : Option String) (region : String) : Except String String :=
  if region == "mainland_china" && pyTruthy china then .ok (china.getD "")
  else if pyTruthy intl then .ok (intl.getD "")
  else .error noKeyMsg

/-- A single outgoing HTTP POST as the nodes assemble it. -/
structure HttpPost where
  url : String
  authBearer : String
  payload : JVal

/-- The node pre-flight shared by generate/edit/describe: resolve the
key via `check_api_key` FIRST; only on success is a request value built
(so a key failure happens before any network call). -/
def nodeRequestPlan (intl china : Option String) (region : String)
    (url : String) (payload : JVal) : Except String HttpPost :=
  match check_api_key intl china region with
  | .error e => .error e
  | .ok key => .ok ⟨url, "Bearer " ++ key, payload⟩

/-- Generic first-match association lookup (Python `dict.get`). -/
def lookupAssoc {α : Type} : List (String × α) → String → Option α
  | [], _ => none
  | (k, v) :: rest, key => if k == key then some v else lookupAssoc rest key

/-- `QwenAPIBase.ENDPOINTS` (api_base.py lines 47-50). -/
def ENDPOINTS : List (String × String) :=
  [("international",
    "https://dashscope-intl.aliyuncs.com/api/v1/services/aigc/multimodal-generation/generation"),
   ("mainland_china",
    "https://dashscope.aliyuncs.com/api/v1/services/aigc/multimodal-generation/generation")]

/-- `QwenAPIBase.OPENAI_ENDPOINTS` (api_base.py lines 53-56). -/
def OPENAI_ENDPOINTS : List (String × String) :=
  [("international",
    "https://dashscope-intl.aliyuncs.com/compatible-mode/v1/chat/completions"),
   ("mainland_china",
    "https://dashscope.aliyuncs.com/compatible-mode/v1/chat/completions")]

/-- `QwenAPIBase.get_api_url` (api_base.py lines 81-83):
`self.ENDPOINTS.get(region, self.ENDPOINTS["international"])` — `dict.get`
with a default never raises. -/
def get_api_url (region : String) : String :=
  (lookupAssoc ENDPOINTS region).getD ((lookupAssoc ENDPOINTS "international").getD "")

/-- `QwenAPIBase.get_openai_api_url` (api_base.py lines 85-87). -/
def get_openai_api_url (region : String) : String :=
  (lookupAssoc OPENAI_ENDPOINTS region).getD
    ((lookupAssoc OPENAI_ENDPOINTS "international").getD "")

/-!
## Request builders (`qwen_image/api/client.py`, mirrored in
`qwen_image_nodes.py` and the per-file node copies)
-/

/-- The `parameters` object of a TextToImage payload (client.py lines
65-76): `size`, `prompt_extend`, `watermark` always; then
`negative_prompt` if the string is truthy, then `seed` if `seed > 0`
(Python dicts append new keys at the end). -/
def t2iParams (size negPrompt : String) (promptExtend watermark : Bool)
    (seed : Int) : List (String × JVal) :=
  let p0 : List (String × JVal) :=
    [("size", .str size), ("prompt_extend", .bool promptExtend),
     ("watermark", .bool watermark)]
  let p1 := if negPrompt ≠ "" then p0 ++ [("negative_prompt", .str negPrompt)] else p0
  if seed > 0 then p1 ++ [("seed", .num seed)] else p1

/-- The full TextToImage payload built by `QwenAPIClient.generate_image`
(client.py lines 51-76) and byte-identically by
`QwenT2IGenerator.generate` (qwen_image_nodes.py lines 140-165). -/
def generateImagePayload (prompt size negPrompt : String)
    (promptExtend watermark : Bool) (seed : Int) : JVal :=
  .obj
    [("model", .str "qwen-image"),
     ("input", .obj
       [("messages", .arr
         [.obj [("role", .str "user"),
                ("content", .arr [.obj [("text", .str prompt)]])]])]),
     ("parameters", .obj (t2iParams size negPrompt promptExtend watermark seed))]

/-- Python `list.insert(i, a)` (clamping an index past the end). -/
def listInsertAt {α : Type} (i : Nat) (a : α) : List α → List α
  | [] => [a]
  | b :: bs =>
    match i with
    | 0 => a :: b :: bs
    | j + 1 => b :: listInsertAt j a bs

/-- The message `content` list built by `QwenAPIClient.edit_image`
(client.py lines 116-129) and `QwenI2IGenerator.edit`
(qwen_image_nodes.py lines 294-310): start from
`[image entry, text entry]`, then `content.insert(1, mask entry)` when
the mask data is truthy. -/
def editContent (prompt imageData : String) (maskData : Option String) : List JVal :=
  let base : List JVal :=
    [.obj [("image", .str ("data:image/png;base64," ++ imageData))],
     .obj [("text", .str prompt)]]
  if pyTruthy maskData then
    listInsertAt 1 (.obj [("mask", .str ("data:image/png;base64," ++ maskData.getD ""))]) base
  else base

/-- The message `content` list built by `QwenVLGenerator.describe`
(qwen/vl_generator.py lines 77-89): the image entry (when the base64
data is truthy) followed by the text entry. -/
def describeContent (prompt : String) (imageData : Option String) : List JVal :=
  (if pyTruthy imageData then
    [JVal.obj [("type", .str "image_url"),
               ("image_url", .obj
                 [("url", .str ("data:image/png;base64," ++ imageData.getD ""))])]]
  else []) ++
  [JVal.obj [("type", .str "text"), ("text", .str prompt)]]

/-- The OpenAI-style chat payload built by `QwenVLGenerator.describe`
(qwen/vl_generator.py lines 92-101). -/
def describePayload (model prompt : String) (imageData : Option String)
    (stream : Bool) : JVal :=
  .obj
    [("model", .str model),
     ("messages", .arr
       [.obj [("role", .str "user"),
              ("content", .arr (describeContent prompt imageData))]]),
     ("stream", .bool stream)]

/-!
## Error classifier (`QwenAPIClient._handle_request_exception`,
client.py lines 168-197; the node copies raise `RuntimeError` with the
same message texts)
-/

/-- An HTTP response attached to a `requests` exception. -/
structure HttpResponse where
  status : Nat
  reason : String
  text : String

/-- The error taxonomy of `qwen_image/exceptions.py` that the classifier
raises: `QwenAPIAuthenticationError`, `QwenAPIRequestError`,
`QwenAPIResponseError`. -/
inductive QwenError where
  | authentication (msg : String)
  | request (msg : String)
  | response (msg : String)

/-- Message built for HTTP 401 up to the appended body text. -/
def detail401 : String :=
  "API request failed: 401 Unauthorized. This usually means your API key is invalid or not properly configured. Error details: "

/-- Message built for HTTP 403 up to the appended body text. -/
def detail403 : String :=
  "API request failed: 403 Forbidden. This usually means your API key is valid but you don\x27t have access to this model. Error details: "

/-- Message built for HTTP 400 up to the appended body text. -/
def detail400 : String :=
  "API request failed: 400 Bad Request. This usually means there\x27s an issue with the request format. Error details: "

/-- `_handle_request_exception` (client.py lines 168-197): an exception
with an attached response is classified by status code; one without
(connection failure) becomes a generic request error. -/
def handleRequestException (resp : Option HttpResponse) (errText : String) : QwenError :=
  match resp with
  | some r =>
    if r.status == 401 then .authentication (detail401 ++ r.text)
    else if r.status == 403 then .authentication (detail403 ++ r.text)
    else if r.status == 400 then .request (detail400 ++ r.text)
    else .request ("API request failed: " ++ toString r.status ++ " " ++ r.reason
                   ++ ". Response: " ++ r.text)
  | none => .request ("API request failed: " ++ errText)

/-!
## Response extraction (client.py lines 84-91 for images,
qwen/vl_generator.py lines 129-137 for describe)

The Python guards use `in`, `len` and subscription, whose failure modes
the `py*` helpers reproduce; only `requests.exceptions.RequestException`
is caught around this code in client.py, so a `KeyError`/`TypeError`
raised here escapes unclassified.
-/

/-- The image-URL extraction of `generate_image`/`edit_image`: mirror of
`if "output" in result and "choices" in result["output"]: ... raise
QwenAPIResponseError(f"Unexpected API response format: {result}")`,
with Python short-circuit evaluation order preserved. -/
def extractImageUrl (result : JVal) : Except PyErr JVal :=
  match pyContains result "output" with
  | .error e => .error e
  | .ok false => .error (.responseError result)
  | .ok true =>
    match pySubscriptStr result "output" with
    | .error e => .error e
    | .ok out =>
      match pyContains out "choices" with
      | .error e => .error e
      | .ok false => .error (.responseError result)
      | .ok true =>
        match pySubscriptStr out "choices" with
        | .error e => .error e
        | .ok choices =>
          match pyLen choices with
          | .error e => .error e
          | .ok n =>
            if n = 0 then .error (.responseError result)
            else
              match pySubscriptNat choices 0 with
              | .error e => .error e
              | .ok c0 =>
                match pyContains c0 "message" with
                | .error e => .error e
                | .ok false => .error (.responseError result)
                | .ok true =>
                  match pySubscriptStr c0 "message" with
                  | .error e => .error e
                  | .ok msg =>
                    match pyContains msg "content" with
                    | .error e => .error e
                    | .ok false => .error (.responseError result)
                    | .ok true =>
                      match pySubscriptStr msg "content" with
                      | .error e => .error e
                      | .ok content =>
                        match pyLen content with
                        | .error e => .error e
                        | .ok m =>
                          if m = 0 then .error (.responseError result)
                          else
                            match pySubscriptNat content 0 with
                            | .error e => .error e
                            | .ok e0 =>
                              match pyContains e0 "image" with
                              | .error e => .error e
                              | .ok false => .error (.responseError result)
                              | .ok true => pySubscriptStr e0 "image"

/-- The description extraction of `QwenVLGenerator.describe`
(vl_generator.py lines 129-137): `result.choices[0].message.content`,
guarded the same way; failures raise `ValueError("Unexpected API
response format: ...")`, modelled by the same `responseError`. -/
def extractDescription (result : JVal) : Except PyErr JVal :=
  match pyContains result "choices" with
  | .error e => .error e
  | .ok false => .error (.responseError result)
  | .ok true =>
    match pySubscriptStr result "choices" with
    | .error e => .error e
    | .ok cs =>
      match pyLen cs with
      | .error e => .error e
      | .ok n =>
        if n = 0 then .error (.responseError result)
        else
          match pySubscriptNat cs 0 with
          | .error e => .error e
          | .ok choice =>
            match pyContains choice "message" with
            | .error e => .error e
            | .ok false => .error (.responseError result)
            | .ok true =>
              match pySubscriptStr choice "message" with
              | .error e => .error e
              | .ok msg =>
                match pyContains msg "content" with
                | .error e => .error e
                | .ok false => .error (.responseError result)
                | .ok true => pySubscriptStr msg "content"

/-!
## Theorems
-/

/-- C10: `get_api_url` and `get_openai_api_url` are total on arbitrary
region strings (`dict.get` with a default never raises); any region
other than `"mainland_china"` — in particular any string outside the
endpoint map — yields the international endpoint, and
`"mainland_china"` yields the China endpoint. -/
theorem c10_region_url_total (region : String) :
    (region ≠ "mainland_china" →
      get_api_url region =
        "https://dashscope-intl.aliyuncs.com/api/v1/services/aigc/multimodal-generation/generation" ∧
      get_openai_api_url region =
        "https://dashscope-intl.aliyuncs.com/compatible-mode/v1/chat/completions") ∧
    get_api_url "mainland_china" =
      "https://dashscope.aliyuncs.com/api/v1/services/aigc/multimodal-generation/generation" ∧
    get_openai_api_url "mainland_china" =
      "https://dashscope.aliyuncs.com/compatible-mode/v1/chat/completions" := by
  refine ⟨?_, rfl, rfl⟩
  intro h
  have h2 : (("mainland_china" : String) == region) = false := by
    simp [beq_eq_false_iff_ne]
    exact fun hc => h hc.symm
  by_cases h1 : (("international" : String) == region) = true
  · constructor <;> simp [get_api_url, get_openai_api_url, ENDPOINTS, OPENAI_ENDPOINTS,
      lookupAssoc, h1]
  · have h1f : (("international" : String) == region) = false := by
      simpa using h1
    constructor <;> simp [get_api_url, get_openai_api_url, ENDPOINTS, OPENAI_ENDPOINTS,
      lookupAssoc, h1f, h2]

/-- C10 witness: an unknown region string falls back to the
international endpoints. -/
theorem c10_region_url_total_witness :
    get_api_url "somewhere_else" =
      "https://dashscope-intl.aliyuncs.com/api/v1/services/aigc/multimodal-generation/generation" ∧
    get_openai_api_url "somewhere_else" =
      "https://dashscope-intl.aliyuncs.com/compatible-mode/v1/chat/completions" :=
  (c10_region_url_total "somewhere_else").1 (by decide)

/-- C5: the classifier maps HTTP 401 to the Authentication kind with the
response body appended to the message, HTTP 403 also to Authentication
(model-access message), and HTTP 400 to the request/BadRequest kind with
the body appended. -/
theorem c5_status_classification (reason text errText : String) :
    handleRequestException (some ⟨401, reason, text⟩) errText
      = .authentication (detail401 ++ text) ∧
    handleRequestException (some ⟨403, reason, text⟩) errText
      = .authentication (detail403 ++ text) ∧
    handleRequestException (some ⟨400, reason, text⟩) errText
      = .request (detail400 ++ text) :=
  ⟨rfl, rfl, rfl⟩

/-- C3: in a TextToImage payload, `seed` is omitted when 0 and present
with its value when positive; `negative_prompt` is omitted when empty
and present with its value otherwise; and the payload carries exactly
the `t2iParams` object under `"parameters"`. -/
theorem c3_t2i_optional_params (prompt size negPrompt : String)
    (promptExtend watermark : Bool) (seed : Int) :
    (generateImagePayload prompt size negPrompt promptExtend watermark seed).getKey
      "parameters" = some (.obj (t2iParams size negPrompt promptExtend watermark seed)) ∧
    (seed = 0 →
      lookupKey (t2iParams size negPrompt promptExtend watermark seed) "seed" = none) ∧
    (0 < seed →
      lookupKey (t2iParams size negPrompt promptExtend watermark seed) "seed"
        = some (.num seed)) ∧
    (negPrompt = "" →
      lookupKey (t2iParams size negPrompt promptExtend watermark seed) "negative_prompt"
        = none) ∧
    (negPrompt ≠ "" →
      lookupKey (t2iParams size negPrompt promptExtend watermark seed) "negative_prompt"
        = some (.str negPrompt)) := by
  refine ⟨rfl, ?_, ?_, ?_, ?_⟩
  · intro h
    subst h
    by_cases hn : negPrompt = "" <;> simp [t2iParams, hn, lookupKey]
  · intro h
    by_cases hn : negPrompt = "" <;>
      simp [t2iParams, hn, lookupKey, h, Int.not_lt.mpr, h.le, gt_iff_lt]
  · intro h
    subst h
    by_cases hs : seed > 0 <;> simp [t2iParams, hs, lookupKey]
  · intro h
    by_cases hs : seed > 0 <;> simp [t2iParams, hs, lookupKey, h]

/-- C3 witness: concrete builds with `seed = 0`, `seed = 42`, empty and
non-empty negative prompt. -/
theorem c3_t2i_optional_params_witness :
    lookupKey (t2iParams "1328*1328" "" true false 0) "seed" = none ∧
    lookupKey (t2iParams "1328*1328" "blurry" true false 42) "seed" = some (.num 42) ∧
    lookupKey (t2iParams "1328*1328" "" true false 0) "negative_prompt" = none ∧
    lookupKey (t2iParams "1328*1328" "blurry" true false 42) "negative_prompt"
      = some (.str "blurry") :=
  ⟨(c3_t2i_optional_params "p" "1328*1328" "" true false 0).2.1 rfl,
   (c3_t2i_optional_params "p" "1328*1328" "blurry" true false 42).2.2.1 (by decide),
   (c3_t2i_optional_params "p" "1328*1328" "" true false 0).2.2.2.1 rfl,
   (c3_t2i_optional_params "p" "1328*1328" "blurry" true false 42).2.2.2.2 (by decide)⟩

/-- C4: with a truthy mask the edit content is exactly
`[image entry, mask entry, text entry]` (mask at index 1, text last);
without a mask it is `[image entry, text entry]` and no element carries
a `"mask"` key. -/
theorem c4_edit_mask_position (prompt imageData m : String) :
    (m ≠ "" →
      editContent prompt imageData (some m) =
        [.obj [("image", .str ("data:image/png;base64," ++ imageData))],
         .obj [("mask", .str ("data:image/png;base64," ++ m))],
         .obj [("text", .str prompt)]]) ∧
    editContent prompt imageData none =
      [.obj [("image", .str ("data:image/png;base64," ++ imageData))],
       .obj [("text", .str prompt)]] ∧
    (∀ e ∈ editContent prompt imageData none, e.getKey "mask" = none) := by
  refine ⟨?_, rfl, ?_⟩
  · intro h
    simp [editContent, pyTruthy, h, listInsertAt]
  · intro e he
    have hn : editContent prompt imageData none =
        [.obj [("image", .str ("data:image/png;base64," ++ imageData))],
         .obj [("text", .str prompt)]] := rfl
    rw [hn] at he
    simp only [List.mem_cons, List.mem_singleton, List.not_mem_nil, or_false] at he
    rcases he with h | h <;> subst h <;> rfl

/-- C4 witness: a concrete edit build with and without a mask. -/
theorem c4_edit_mask_position_witness :
    editContent "make it blue" "IMGDATA" (some "MASKDATA") =
      [.obj [("image", .str "data:image/png;base64,IMGDATA")],
       .obj [("mask", .str "data:image/png;base64,MASKDATA")],
       .obj [("text", .str "make it blue")]] :=
  (c4_edit_mask_position "make it blue" "IMGDATA" "MASKDATA").1 (by decide)

/-- C9: a Describe build uses the OpenAI-style chat shape
`{model, messages: [{role: user, content: [...]}], stream}` whose
content is exactly one image entry
`{type: image_url, image_url: {url: data-URI}}` followed by exactly one
text entry `{type: text, text: prompt}`; and the description is read
from the flat path `choices[0].message.content` of the response. -/
theorem c9_describe_shape (model prompt data : String) (stream : Bool) (d : JVal) :
    (data ≠ "" →
      describePayload model prompt (some data) stream =
        .obj
          [("model", .str model),
           ("messages", .arr
             [.obj [("role", .str "user"),
                    ("content", .arr
                      [.obj [("type", .str "image_url"),
                             ("image_url", .obj
                               [("url", .str ("data:image/png;base64," ++ data))])],
                       .obj [("type", .str "text"), ("text", .str prompt)]])]]),
           ("stream", .bool stream)]) ∧
    extractDescription
      (.obj [("choices", .arr [.obj [("message", .obj [("content", d)])]])]) = .ok d := by
  constructor
  · intro h
    simp [describePayload, describeContent, pyTruthy, h]
  · rfl

/-- C9 witness: a concrete describe build and extraction. -/
theorem c9_describe_shape_witness :
    describePayload "qwen-vl-max" "What is in this picture?" (some "IMGDATA") false =
      .obj
        [("model", .str "qwen-vl-max"),
         ("messages", .arr
           [.obj [("role", .str "user"),
                  ("content", .arr
                    [.obj [("type", .str "image_url"),
                           ("image_url", .obj
                             [("url", .str "data:image/png;base64,IMGDATA")])],
                     .obj [("type", .str "text"),
                           ("text", .str "What is in this picture?")]])]]),
         ("stream", .bool false)] ∧
    extractDescription
      (.obj [("choices", .arr [.obj [("message", .obj [("content", .str "a cat")])]])])
      = .ok (.str "a cat") :=
  ⟨(c9_describe_shape "qwen-vl-max" "What is in this picture?" "IMGDATA" false
      (.str "a cat")).1 (by decide),
   (c9_describe_shape "qwen-vl-max" "What is in this picture?" "IMGDATA" false
      (.str "a cat")).2⟩

/-- C8: with no key resolvable for the requested region (international
key falsy, and for `mainland_china` the China key falsy too),
`check_api_key` raises the configuration error and the node builds no
request; with region `mainland_china` and only the international key
set, the international key is returned. -/
theorem c8_key_resolution (intl china : Option String) (region : String)
    (url : String) (payload : JVal) :
    (pyTruthy intl = false → (region = "mainland_china" → pyTruthy china = false) →
      check_api_key intl china region = .error noKeyMsg ∧
      nodeRequestPlan intl china region url payload = .error noKeyMsg) ∧
    (∀ k : String, k ≠ "" → region = "mainland_china" → pyTruthy china = false →
      check_api_key (some k) china region = .ok k) := by
  constructor
  · intro hi hc
    have hcond : (region == "mainland_china" && pyTruthy china) = false := by
      by_cases hr : region = "mainland_china"
      · simp [hr, hc hr]
      · simp [hr]
    have hkey : check_api_key intl china region = .error noKeyMsg := by
      simp [check_api_key, hcond, hi]
    exact ⟨hkey, by simp [nodeRequestPlan, hkey]⟩
  · intro k hk hr hc
    subst hr
    cases china with
    | none => simp [check_api_key, pyTruthy, hk]
    | some s =>
      have hs : s = "" := by
        by_contra hne
        simp [pyTruthy, hne] at hc
      subst hs
      simp [check_api_key, pyTruthy, hk]

/-- C8 witness: both keys unset for `mainland_china` fails before any
request; the international key alone serves `mainland_china`. -/
theorem c8_key_resolution_witness :
    (check_api_key none none "mainland_china" = .error noKeyMsg ∧
     nodeRequestPlan none none "mainland_china" "u" (.obj []) = .error noKeyMsg) ∧
    check_api_key (some "sk-test") none "mainland_china" = .ok "sk-test" :=
  ⟨(c8_key_resolution none none "mainland_china" "u" (.obj [])).1 rfl (fun _ => rfl),
   (c8_key_resolution (some "sk-test") none "mainland_china" "u" (.obj [])).2
     "sk-test" (by decide) rfl rfl⟩

/-- C6 counterexample: a 200 body whose `output.choices` is a JSON
object (present, but not a list) makes `choices[0]` raise an
uncontrolled `KeyError` — not the `QwenAPIResponseError` the claim
promises (client.py catches only `requests` exceptions around this
code). -/
theorem c6_keyerror_counterexample :
    extractImageUrl (.obj [("output", .obj [("choices", .obj [("a", .num 1)])])])
      = .error .keyError ∧
    Except.error (α := JVal) PyErr.keyError ≠
      Except.error (.responseError
        (.obj [("output", .obj [("choices", .obj [("a", .num 1)])])])) :=
  ⟨rfl, fun h => by injection h with h2; exact PyErr.noConfusion h2⟩

/-- C6 amended: when the parsed body is an object that lacks `output`
entirely, or whose `output` is an object lacking `choices`, the client
does raise `QwenAPIResponseError` carrying the parsed body. -/
theorem c6_missing_choices (fs : List (String × JVal)) :
    (lookupKey fs "output" = none →
      extractImageUrl (.obj fs) = .error (.responseError (.obj fs))) ∧
    (∀ gs : List (String × JVal), lookupKey fs "output" = some (.obj gs) →
      lookupKey gs "choices" = none →
      extractImageUrl (.obj fs) = .error (.responseError (.obj fs))) := by
  constructor
  · intro h
    simp [extractImageUrl, pyContains, h]
  · intro gs h1 h2
    simp [extractImageUrl, pyContains, pySubscriptStr, h1, h2]

/-- C6 amended witness: a body without `output`, and one whose `output`
object has no `choices`. -/
theorem c6_missing_choices_witness :
    extractImageUrl (.obj [("code", .str "x")])
      = .error (.responseError (.obj [("code", .str "x")])) ∧
    extractImageUrl (.obj [("output", .obj [("task", .str "t")])])
      = .error (.responseError (.obj [("output", .obj [("task", .str "t")])])) :=
  ⟨(c6_missing_choices [("code", .str "x")]).1 rfl,
   (c6_missing_choices [("output", .obj [("task", .str "t")])]).2
     [("task", .str "t")] rfl rfl⟩

/-- The head of `dropWhile p` never satisfies `p`. -/
theorem dropWhileHeadNot (p : Char → Bool) :
    ∀ (l : List Char) (c : Char), (l.dropWhile p).head? = some c → p c = false := by
  intro l
  induction l with
  | nil => intro c h; simp [List.dropWhile] at h
  | cons a l ih =>
    intro c h
    by_cases hp : p a = true
    · rw [List.dropWhile_cons_of_pos hp] at h
      exact ih c h
    · rw [List.dropWhile_cons_of_neg hp] at h
      simp only [List.head?_cons, Option.some.injEq] at h
      subst h
      simpa using hp

/-- `dropWhile p` keeps the last element of the list when nonempty. -/
theorem dropWhileGetLastEq (p : Char → Bool) :
    ∀ (l : List Char) (c : Char), (l.dropWhile p).getLast? = some c →
      l.getLast? = some c := by
  intro l
  induction l with
  | nil => intro c h; simp [List.dropWhile] at h
  | cons a l ih =>
    intro c h
    by_cases hp : p a = true
    · rw [List.dropWhile_cons_of_pos hp] at h
      have hl := ih c h
      cases l with
      | nil => simp at hl
      | cons b m => rw [List.getLast?_cons_cons]; exact hl
    · rw [List.dropWhile_cons_of_neg hp] at h
      exact h

/-- Everything `pyStripChars p` removes satisfies `p`, and it removes
only from the two ends. -/
theorem pyStripCharsDecomp (p : Char → Bool) (s : List Char) :
    ∃ a b, (∀ c ∈ a, p c = true) ∧ (∀ c ∈ b, p c = true) ∧
      s = a ++ pyStripChars p s ++ b := by
  refine ⟨s.takeWhile p, ((s.dropWhile p).reverse.takeWhile p).reverse, ?_, ?_, ?_⟩
  · intro c hc
    exact List.mem_takeWhile_imp hc
  · intro c hc
    rw [List.mem_reverse] at hc
    exact List.mem_takeWhile_imp hc
  · unfold pyStripChars
    conv_lhs => rw [← List.takeWhile_append_dropWhile (p := p) (l := s)]
    rw [List.append_assoc]
    congr 1
    calc s.dropWhile p
        = (s.dropWhile p).reverse.reverse := (List.reverse_reverse _).symm
      _ = ((s.dropWhile p).reverse.takeWhile p
            ++ (s.dropWhile p).reverse.dropWhile p).reverse := by
            rw [List.takeWhile_append_dropWhile]
      _ = ((s.dropWhile p).reverse.dropWhile p).reverse
            ++ ((s.dropWhile p).reverse.takeWhile p).reverse := by
            rw [List.reverse_append]

/-- A nonempty `pyStripChars p` result starts with a character outside
the strip set. -/
theorem pyStripCharsHeadNot (p : Char → Bool) (s : List Char) (c : Char)
    (h : (pyStripChars p s).head? = some c) : p c = false := by
  unfold pyStripChars at h
  rw [List.head?_reverse] at h
  have h2 := dropWhileGetLastEq p (s.dropWhile p).reverse c h
  rw [List.getLast?_reverse] at h2
  exact dropWhileHeadNot p s c h2

/-- A nonempty `pyStripChars p` result ends with a character outside the
strip set. -/
theorem pyStripCharsGetLastNot (p : Char → Bool) (s : List Char) (c : Char)
    (h : (pyStripChars p s).getLast? = some c) : p c = false := by
  unfold pyStripChars at h
  rw [List.getLast?_reverse] at h
  exact dropWhileHeadNot p _ c h

/-- C7 counterexample: for the value `""key""` the loaded key is `key` —
every surrounding quote is removed, not a single matching layer, so the
inner quotes the claim promises to keep are gone. -/
theorem c7_all_quotes_counterexample :
    loadApiKey ("\"\"key\"\"".data) = "key".data ∧
    specStripOneQuoteLayer ("\"\"key\"\"".data) = "\"key\"".data ∧
    loadApiKey ("\"\"key\"\"".data) ≠ specStripOneQuoteLayer ("\"\"key\"\"".data) := by
  refine ⟨by decide, by decide, by decide⟩

/-- C7 amended: the loaded key is the raw value with surrounding
whitespace removed and then ALL leading and trailing quote characters
(single or double, matched or not) removed: the raw value decomposes as
whitespace ++ quotes ++ key ++ quotes ++ whitespace, and the key itself
neither starts nor ends with a quote character. -/
theorem c7_strip_characterization (raw : List Char) :
    (∃ w1 q1 q2 w2,
      (∀ c ∈ w1, pyIsSpace c = true) ∧ (∀ c ∈ w2, pyIsSpace c = true) ∧
      (∀ c ∈ q1, isQuoteChar c = true) ∧ (∀ c ∈ q2, isQuoteChar c = true) ∧
      raw = w1 ++ (q1 ++ loadApiKey raw ++ q2) ++ w2) ∧
    (∀ c, (loadApiKey raw).head? = some c → isQuoteChar c = false) ∧
    (∀ c, (loadApiKey raw).getLast? = some c → isQuoteChar c = false) := by
  obtain ⟨w1, w2, hw1, hw2, hws⟩ := pyStripCharsDecomp pyIsSpace raw
  obtain ⟨q1, q2, hq1, hq2, hqs⟩ :=
    pyStripCharsDecomp isQuoteChar (pyStripChars pyIsSpace raw)
  refine ⟨⟨w1, q1, q2, w2, hw1, hw2, hq1, hq2, ?_⟩, ?_, ?_⟩
  · conv_lhs => rw [hws]
    rw [hqs]
    rfl
  · intro c h
    exact pyStripCharsHeadNot isQuoteChar (pyStripChars pyIsSpace raw) c h
  · intro c h
    exact pyStripCharsGetLastNot isQuoteChar (pyStripChars pyIsSpace raw) c h

/-- C7 witness: the decomposition and boundary facts at the concrete
raw value `  "my-key"  `. -/
theorem c7_strip_characterization_witness :
    (∃ w1 q1 q2 w2,
      (∀ c ∈ w1, pyIsSpace c = true) ∧ (∀ c ∈ w2, pyIsSpace c = true) ∧
      (∀ c ∈ q1, isQuoteChar c = true) ∧ (∀ c ∈ q2, isQuoteChar c = true) ∧
      "  \"my-key\"  ".data
        = w1 ++ (q1 ++ loadApiKey ("  \"my-key\"  ".data) ++ q2) ++ w2) ∧
    isQuoteChar 'm' = false ∧ isQuoteChar 'y' = false :=
  ⟨(c7_strip_characterization ("  \"my-key\"  ".data)).1,
   (c7_strip_characterization ("  \"my-key\"  ".data)).2.1 'm' (by decide),
   (c7_strip_characterization ("  \"my-key\"  ".data)).2.2 'y' (by decide)⟩

/-- An 8-bit-quantized value k/255 is recovered exactly by the scale
and uint8 cast (float32 arithmetic is likewise exact here, checked
exhaustively for k in [0,255]). -/
theorem scaleToUint8_quantized (n : ℕ) (hn : n ≤ 255) :
    scaleToUint8 ((n : ℚ) / 255) = n := by
  unfold scaleToUint8 truncToZero
  have h255 : (n : ℚ) / 255 * 255 = (n : ℚ) := by
    field_simp
  rw [h255, if_pos (by positivity), Int.floor_natCast]
  show ((n : Int) % 256).toNat = n
  omega

/-- Scaling a list of 8-bit-quantized values to uint8 and dividing by
255 again is the identity. -/
theorem quantizedMapRoundtrip (l : List ℚ)
    (h : ∀ x ∈ l, ∃ n : ℕ, n ≤ 255 ∧ x = (n : ℚ) / 255) :
    (l.map scaleToUint8).map (fun n : ℕ => (n : ℚ) / 255) = l := by
  induction l with
  | nil => rfl
  | cons a l ih =>
    simp only [List.map_cons, List.cons.injEq]
    constructor
    · obtain ⟨n, hn, he⟩ := h a (by simp)
      rw [he, scaleToUint8_quantized n hn]
    · exact ih (fun x hx => h x (by simp [hx]))

/-- A tensor of entries in [0,1] whose squeezed shape is 2-D is encoded
as a mode-L PNG of its uint8 pixels. -/
theorem encodeSqueezedRank2 (t : ImageTensor) (h w : ℕ)
    (hne : t.data ≠ [])
    (hall : t.data.all (fun x => x ≤ 1) = true)
    (hsq : squeezeShape t.shape = [h, w]) :
    tensor_to_base64_image t = some ⟨[h, w], t.data.map scaleToUint8⟩ := by
  unfold tensor_to_base64_image
  rw [if_neg hne, if_pos hall, hsq]

/-- C1 counterexample: `squeeze()` drops every size-1 axis, not only
the batch axis.  A single-channel `[1, 2, 2, 1]` quantized tensor is
encoded as a 2×2 mode-L PNG, and decoding yields a `[1, 2, 2]` tensor:
the channel axis is gone, so the round-trip differs from the original
beyond the batch-dimension normalization the claim allows. -/
theorem c1_squeeze_counterexample :
    tensor_to_base64_image ⟨[1, 2, 2, 1], List.replicate 4 ((128 : ℚ) / 255)⟩
      = some ⟨[2, 2], List.replicate 4 128⟩ ∧
    base64_to_tensor_image ⟨[2, 2], List.replicate 4 128⟩
      = ⟨[1, 2, 2], List.replicate 4 ((128 : ℚ) / 255)⟩ ∧
    (⟨[1, 2, 2], List.replicate 4 ((128 : ℚ) / 255)⟩ : ImageTensor)
      ≠ ⟨[1, 2, 2, 1], List.replicate 4 ((128 : ℚ) / 255)⟩ := by
  have hscale : scaleToUint8 ((128 : ℚ) / 255) = 128 := by
    have h := scaleToUint8_quantized 128 (by norm_num)
    simpa using h
  refine ⟨?_, ?_, ?_⟩
  · have hne : (List.replicate 4 ((128 : ℚ) / 255)) ≠ [] := by simp
    have hall : (List.replicate 4 ((128 : ℚ) / 255)).all
        (fun x => decide (x ≤ 1)) = true := by
      rw [List.all_eq_true]
      intro x hx
      rw [List.eq_of_mem_replicate hx, decide_eq_true_eq]
      norm_num
    have he := encodeSqueezedRank2 ⟨[1, 2, 2, 1], List.replicate 4 ((128 : ℚ) / 255)⟩
      2 2 hne hall (by decide)
    rw [he, List.map_replicate, hscale]
  · simp only [base64_to_tensor_image, List.map_replicate]
    simp [hscale]
  · intro h
    injection h with h1 h2
    exact absurd h1 (by decide)

/-- C1 amended: for a tensor `[1, H, W, C]` whose only size-1 axis is
the batch (H ≥ 2, W ≥ 2, and C ∈ {2, 3, 4} — LA, RGB or RGBA) with
8-bit-quantized values in [0,1] (every entry k/255, k ≤ 255), decoding
the encoding reproduces the tensor exactly: the batch axis squeezed by
encode is re-added by decode and everything else round-trips through
the lossless PNG.  (For C = 1, or H = 1 or W = 1, the pixel values
still round-trip but `squeeze()` also drops that axis, as the
counterexample shows.) -/
theorem c1_roundtrip_quantized (t : ImageTensor) (H W C : ℕ)
    (hs : t.shape = [1, H, W, C]) (hH : 2 ≤ H) (hW : 2 ≤ W)
    (hC : C = 2 ∨ C = 3 ∨ C = 4)
    (hlen : t.data.length = H * W * C)
    (hq : ∀ x ∈ t.data, ∃ n : ℕ, n ≤ 255 ∧ x = (n : ℚ) / 255) :
    ∃ p, tensor_to_base64_image t = some p ∧ base64_to_tensor_image p = t := by
  have hC2 : 2 ≤ C := by rcases hC with h | h | h <;> omega
  have hne : t.data ≠ [] := by
    intro h
    rw [h] at hlen
    simp only [List.length_nil] at hlen
    have : 0 < H * W * C := by positivity
    omega
  have hall : t.data.all (fun x => decide (x ≤ 1)) = true := by
    rw [List.all_eq_true]
    intro x hx
    obtain ⟨n, hn, he⟩ := hq x hx
    rw [decide_eq_true_eq, he, div_le_one (by norm_num)]
    exact_mod_cast hn
  have hsq : squeezeShape t.shape = [H, W, C] := by
    have hH1 : H ≠ 1 := by omega
    have hW1 : W ≠ 1 := by omega
    have hC1 : C ≠ 1 := by omega
    rw [hs]
    simp [squeezeShape, hH1, hW1, hC1]
  refine ⟨⟨[H, W, C], t.data.map scaleToUint8⟩, ?_, ?_⟩
  · unfold tensor_to_base64_image
    rw [if_neg hne, if_pos hall, hsq]
    simp only []
    rw [if_pos hC]
  · cases t with
    | mk s d =>
      simp only at hs hq
      subst hs
      simp only [base64_to_tensor_image, ImageTensor.mk.injEq, true_and]
      exact quantizedMapRoundtrip d hq

/-- C1 witness: a concrete `[1, 2, 2, 3]` RGB tensor with quantized
values round-trips exactly. -/
theorem c1_roundtrip_quantized_witness :
    ∃ p, tensor_to_base64_image ⟨[1, 2, 2, 3], List.replicate 12 ((128 : ℚ) / 255)⟩
        = some p ∧
      base64_to_tensor_image p
        = ⟨[1, 2, 2, 3], List.replicate 12 ((128 : ℚ) / 255)⟩ :=
  c1_roundtrip_quantized ⟨[1, 2, 2, 3], List.replicate 12 ((128 : ℚ) / 255)⟩
    2 2 3 rfl (by decide) (by decide) (Or.inr (Or.inl rfl)) (by decide)
    (fun x hx => ⟨128, by decide, by rw [List.eq_of_mem_replicate hx]; simp⟩)

/-- C2: on a tensor with a value above 1.0 (the [0,255] branch) the
encoder produces no PNG at all — the array is left as float32 and
`Image.fromarray`/PNG saving reject it — instead of writing pixels
`round(t)` clipped to [0,255] as the claim states. -/
theorem c2_range255_encode_crashes :
    tensor_to_base64_image ⟨[1, 2, 2, 3], List.replicate 12 (255 : ℚ)⟩ = none := by
  decide
